import Mathlib

/-!
Shallow embedding of `auto_editor/utils/types.py`, the unit-aware coercion
library of this repository, together with proofs checking the claims of the
specification against it.

Modelling conventions:
* Python `float` values are modelled as exact rationals (`ℚ`).  Every value
  the claims exercise is exactly representable, and no claim depends on
  binary-rounding artefacts.
* A Python function that can raise is modelled as `Except PyErr α`; the
  inductive `PyErr` distinguishes the exception classes that occur in the
  source (`CoerceError`, `ValueError`, `ZeroDivisionError`).
* Python built-ins used by the source (`int(str)`, `float(str)`,
  `str(float)`, `str.strip`, `str.split`, `round`) are modelled by
  executable Lean functions (`pyIntParse`, `pyFloatParse`, `pyFloatStr`,
  `stripWS`, `splitOnChar`, `pyRound`) restricted to the behaviour the
  source can reach.
-/

set_option linter.unusedTactic false

namespace AutoEditor

/-- The exception classes raised by the library: its own `CoerceError`, and
the built-in `ValueError` / `ZeroDivisionError` that `color`, `Fraction`,
`int` and `float` can raise. -/
inductive PyErr where
  | coerceError (msg : String)
  | valueError (msg : String)
  | zeroDivisionError (msg : String)
deriving DecidableEq

/-- `true` exactly when the error is the library's own `CoerceError`. -/
def PyErr.isCoerce : PyErr → Bool
  | .coerceError _ => true
  | _ => false

/-- Input type `str | float` taken by several coercers (`_split_num_str`
accepts either; floats are modelled as exact rationals). -/
inductive NumOrStr where
  | num (q : ℚ)
  | str (s : String)
deriving DecidableEq

/-- Result type `int | str` (used by `time`, `src` and `stream`). -/
inductive IntOrStr where
  | int (n : ℤ)
  | str (s : String)
deriving DecidableEq

/-- Result type `float | str` returned by `db_number`. -/
inductive FloatOrStr where
  | flt (q : ℚ)
  | str (s : String)
deriving DecidableEq

/-- Result of `db_threshold`: `amp e` denotes the Python float `10 ** e`
(the exponent is kept symbolically, exact for integral exponents), `lin q`
a value delegated to `threshold`. -/
inductive DbThr where
  | amp (e : ℚ)
  | lin (q : ℚ)
deriving DecidableEq

/-! ## Models of Python built-ins -/

/-- ASCII whitespace stripped by `str.strip()` / leading-trailing whitespace
accepted by `int()` and `float()`. -/
def isPySpace (c : Char) : Bool :=
  c = ' ' || c = '\t' || c = '\n' || c = '\r' || c = Char.ofNat 11 || c = Char.ofNat 12

/-- `str.strip()`: drop whitespace from both ends. -/
def stripWS (l : List Char) : List Char :=
  ((l.dropWhile isPySpace).reverse.dropWhile isPySpace).reverse

/-- Membership of a character in a char list (Python's `c in s`). -/
def charMem (c : Char) : List Char → Bool
  | [] => false
  | a :: r => a = c || charMem c r

/-- Python `s.split(sep)` for a single-character separator. -/
def splitOnChar (c : Char) : List Char → List (List Char)
  | [] => [[]]
  | a :: rest =>
    if a = c then [] :: splitOnChar c rest
    else
      match splitOnChar c rest with
      | h :: t => (a :: h) :: t
      | [] => [[a]]

/-- Split a char list at the first occurrence of `c` (the character itself
is dropped from the second component). -/
def splitAtChar (c : Char) (l : List Char) : List Char × List Char :=
  (l.takeWhile (fun a => a ≠ c), (l.dropWhile (fun a => a ≠ c)).drop 1)

/-- A digit or an underscore. -/
def isDigitOrU (c : Char) : Bool := c.isDigit || c = '_'

/-- No two adjacent underscores. -/
def noDoubleU : List Char → Bool
  | a :: b :: rest => !(a = '_' && b = '_') && noDoubleU (b :: rest)
  | _ => true

/-- The `digitpart` grammar of Python numeric literals: nonempty, digits
with single underscores strictly between digits. -/
def okDigitpart (l : List Char) : Bool :=
  !l.isEmpty && l.all isDigitOrU && (l.headD 'x').isDigit
    && (l.getLastD 'x').isDigit && noDoubleU l

/-- Decimal value of a digit list (underscores must be filtered out first). -/
def digitsVal (l : List Char) : ℕ :=
  l.foldl (fun acc c => acc * 10 + (c.toNat - 48)) 0

/-- Python `int(s)` on a string: optional surrounding whitespace, optional
sign, then a `digitpart`; `none` models the raised `ValueError`. -/
def pyIntParse (s : String) : Option ℤ :=
  match stripWS s.toList with
  | '-' :: r => if okDigitpart r then some (-(digitsVal (r.filter Char.isDigit) : ℤ)) else none
  | '+' :: r => if okDigitpart r then some ((digitsVal (r.filter Char.isDigit) : ℤ)) else none
  | l => if okDigitpart l then some ((digitsVal (l.filter Char.isDigit) : ℤ)) else none

/-- The unsigned mantissa grammar shared by `float(s)` and
`Fraction(s)`: `digitpart`, `digitpart "." digitpart?`, or
`"." digitpart`, valued as an exact rational. -/
def pyFloatCore (l : List Char) : Option ℚ :=
  if l.count '.' = 0 then
    if okDigitpart l then some ((digitsVal (l.filter Char.isDigit) : ℚ)) else none
  else if l.count '.' = 1 then
    if (okDigitpart (splitAtChar '.' l).1 || (splitAtChar '.' l).1.isEmpty)
        && (okDigitpart (splitAtChar '.' l).2 || (splitAtChar '.' l).2.isEmpty)
        && !((splitAtChar '.' l).1.isEmpty && (splitAtChar '.' l).2.isEmpty) then
      some ((digitsVal ((splitAtChar '.' l).1.filter Char.isDigit) : ℚ)
        + (digitsVal ((splitAtChar '.' l).2.filter Char.isDigit) : ℚ)
          / (10 : ℚ) ^ ((splitAtChar '.' l).2.filter Char.isDigit).length)
    else none
  else none

/-- Python `float(s)` restricted to the character set the tokenizer can
pass it (digits, `_`, ` `, `.`, `-`; no exponents, since `e` never reaches
the numeric prefix): strip whitespace, optional sign, mantissa. -/
def pyFloatParse (s : String) : Option ℚ :=
  match stripWS s.toList with
  | '-' :: r => (pyFloatCore r).map (fun q => -q)
  | '+' :: r => pyFloatCore r
  | l => pyFloatCore l

/-- Python `int(float)`: truncation toward zero. -/
def pyTrunc (q : ℚ) : ℤ := if q < 0 then -(Int.floor (-q)) else Int.floor q

/-- Python `round(float)`: round half to even. -/
def pyRound (q : ℚ) : ℤ :=
  if q - (Int.floor q : ℚ) < 1 / 2 then Int.floor q
  else if (1 : ℚ) / 2 < q - (Int.floor q : ℚ) then Int.floor q + 1
  else if Int.floor q % 2 = 0 then Int.floor q else Int.floor q + 1

/-- Decimal digits of `n`, least significant first, driven by fuel. -/
def natDigitsRev (fuel : ℕ) (n : ℕ) : List Char :=
  match fuel with
  | 0 => []
  | fuel' + 1 =>
    if n < 10 then [Char.ofNat (48 + n)]
    else Char.ofNat (48 + n % 10) :: natDigitsRev fuel' (n / 10)

/-- Decimal rendering of a natural number. -/
def natStr (n : ℕ) : String := ⟨(natDigitsRev (n + 1) n).reverse⟩

/-- Decimal rendering of an integer. -/
def intStr (n : ℤ) : String := if n < 0 then "-" ++ natStr (-n).toNat else natStr n.toNat

/-- Smallest `k ≤ 60` with `d ∣ 10 ^ k`, if any. -/
def findPow10 (d : ℕ) : Option ℕ :=
  (List.range 61).find? (fun k => 10 ^ k % d = 0)

/-- Fractional digits padded to width `k`. -/
def padFrac (k : ℕ) (fp : ℕ) : String :=
  ⟨List.replicate (k - (natStr fp).length) '0'⟩ ++ natStr fp

/-- `str(float)` for a non-negative rational with a finite decimal
expansion: `"90.0"` for integers, shortest fixed-point form otherwise
(matching Python `repr` on the decimal-exact floats the library produces). -/
def pyFloatStrNN (q : ℚ) : String :=
  match findPow10 q.den with
  | some 0 => intStr q.num ++ ".0"
  | some (k + 1) =>
      natStr (q.num.toNat * (10 ^ (k + 1) / q.den) / 10 ^ (k + 1)) ++ "."
        ++ padFrac (k + 1) (q.num.toNat * (10 ^ (k + 1) / q.den) % 10 ^ (k + 1))
  | none => intStr q.num ++ "/" ++ natStr q.den

/-- Python `str(float)` on the exact-rational model. -/
def pyFloatStr (q : ℚ) : String :=
  if q < 0 then "-" ++ pyFloatStrNN (-q) else pyFloatStrNN q

/-- Python ASCII lowercasing (`str.lower`). -/
def pyLower (s : String) : String := ⟨s.toList.map Char.toLower⟩

/-- A lowercase hex digit, as accepted by the `[a-f0-9]` character class. -/
def isHexDigit (c : Char) : Bool := c.isDigit || ('a' ≤ c && c ≤ 'f')

/-- How a `str | float` argument renders inside an f-string message. -/
def NumOrStr.display : NumOrStr → String
  | .num q => pyFloatStr q
  | .str s => s

/-! ## The coercers of `auto_editor/utils/types.py` -/

/-- `_comma_coerce(name, val, num_args)`. -/
def comma_coerce (name : String) (val : String) (num_args : ℕ) : Except PyErr (List String) :=
  if (splitOnChar ',' (stripWS val.toList)).length < num_args then
    .error (.coerceError ("Too few arguments for " ++ name ++ "."))
  else if num_args < (splitOnChar ',' (stripWS val.toList)).length then
    .error (.coerceError ("Too many arguments for " ++ name ++ "."))
  else .ok ((splitOnChar ',' (stripWS val.toList)).map (fun l => (⟨l⟩ : String)))

/-- `_split_num_str(val)`: numeric values pass through with an empty unit;
strings are split into the longest prefix of `NUM_CHARS` characters
(parsed by `float`) and the remaining unit suffix. -/
def split_num_str (val : NumOrStr) : Except PyErr (ℚ × String) :=
  match val with
  | .num q => .ok (q, "")
  | .str s =>
    match pyFloatParse ⟨s.toList.takeWhile (fun c => isDigitOrU c || c = ' ' || c = '.' || c = '-')⟩ with
    | some q => .ok (q, ⟨s.toList.dropWhile (fun c => isDigitOrU c || c = ' ' || c = '.' || c = '-')⟩)
    | none => .error (.coerceError ("Invalid number: '" ++ s ++ "'"))

/-- `_unit_check(unit, allowed_units)`. -/
def unit_check (unit : String) (allowed : List String) : Except PyErr Unit :=
  if unit ∈ allowed then .ok ()
  else .error (.coerceError ("Unknown unit: '" ++ unit ++ "'"))

/-- `natural(val)`: no unit, integral, non-negative; returns `int(num)`. -/
def natural (val : NumOrStr) : Except PyErr ℤ :=
  match split_num_str val with
  | .error e => .error e
  | .ok (num, unit) =>
    if unit ≠ "" then
      .error (.coerceError ("'" ++ val.display ++ "': Natural does not allow units."))
    else if num.den ≠ 1 then
      .error (.coerceError ("'" ++ val.display ++ "': Natural must be a valid integer."))
    else if num < 0 then
      .error (.coerceError ("'" ++ val.display ++ "': Natural cannot be negative."))
    else .ok (pyTrunc num)

/-- `bool_coerce(val)`. -/
def bool_coerce (val : String) : Except PyErr Bool :=
  if val = "#t" || val = "#true" || val = "true" then .ok true
  else if val = "#f" || val = "#false" || val = "false" then .ok false
  else .error (.coerceError ("'" ++ val ++ "': Invalid boolean"))

/-- The non-fraction tail of `number`: tokenize, `%` divides by 100,
otherwise the unit must be empty. -/
def numberTail (val : NumOrStr) : Except PyErr ℚ :=
  match split_num_str val with
  | .error e => .error e
  | .ok (num, unit) =>
    if unit = "%" then .ok (num / 100)
    else
      match unit_check unit [""] with
      | .error e => .error e
      | .ok _ => .ok num

/-- `number(val)`: a string containing `/` is parsed as an integer
fraction with true division; anything else goes through the tokenizer. -/
def number (val : NumOrStr) : Except PyErr ℚ :=
  match val with
  | .str s =>
    if charMem '/' s.toList then
      match splitOnChar '/' s.toList with
      | [a, b] =>
        match pyIntParse ⟨a⟩ with
        | none => .error (.coerceError ("'" ++ s ++ "': Numerator and Denominator must be integers."))
        | some n =>
          match pyIntParse ⟨b⟩ with
          | none => .error (.coerceError ("'" ++ s ++ "': Numerator and Denominator must be integers."))
          | some d =>
            if d = 0 then .error (.coerceError ("'" ++ s ++ "': Denominator must not be zero."))
            else .ok ((n : ℚ) / (d : ℚ))
      | _ => .error (.coerceError ("'" ++ s ++ "': One divisor allowed."))
    else numberTail val
  | .num _ => numberTail val

/-- `speed(val)`: delegate to `number`, clamping non-positive or huge
results to `99999.0`. -/
def speed (val : String) : Except PyErr ℚ :=
  match number (.str val) with
  | .error e => .error e
  | .ok q => if q ≤ 0 ∨ 99999 < q then .ok 99999 else .ok q

/-- `db_number(val)`: a `dB`-suffixed token is returned verbatim,
anything else is delegated to `number`. -/
def db_number (val : String) : Except PyErr FloatOrStr :=
  match split_num_str (.str val) with
  | .error e => .error e
  | .ok (_, unit) =>
    if unit = "dB" then .ok (.str val)
    else
      match number (.str val) with
      | .error e => .error e
      | .ok q => .ok (.flt q)

/-- `src(val)`: a string parsing as a positive integer becomes that
integer; every other string is returned unchanged (never raises). -/
def src (val : String) : IntOrStr :=
  match pyIntParse val with
  | some n => if 0 < n then .int n else .str val
  | none => .str val

/-- `threshold(val)`: delegate to `number`, rejecting results outside
`[0, 1]`. -/
def threshold (val : NumOrStr) : Except PyErr ℚ :=
  match number val with
  | .error e => .error e
  | .ok num =>
    if 1 < num ∨ num < 0 then
      .error (.coerceError ("'" ++ val.display ++ "': Threshold must be between 0 and 1 (0%-100%)"))
    else .ok num

/-- `db_threshold(val)`: a `dB` unit requires magnitude ≤ 0 and yields the
amplitude `10 ** (num / 20)`; otherwise delegate to `threshold`. -/
def db_threshold (val : String) : Except PyErr DbThr :=
  match split_num_str (.str val) with
  | .error e => .error e
  | .ok (num, unit) =>
    if unit = "dB" then
      if 0 < num then .error (.coerceError "dB only goes up to 0")
      else .ok (.amp (num / 20))
    else
      match threshold (.str val) with
      | .error e => .error e
      | .ok q => .ok (.lin q)

/-- The exponent grammar of `Fraction(s)`: optional sign then a nonempty
`digitpart`. -/
def expParse (l : List Char) : Option ℤ :=
  match l with
  | '-' :: r => if okDigitpart r then some (-(digitsVal (r.filter Char.isDigit) : ℤ)) else none
  | '+' :: r => if okDigitpart r then some ((digitsVal (r.filter Char.isDigit) : ℤ)) else none
  | _ => if okDigitpart l then some ((digitsVal (l.filter Char.isDigit) : ℤ)) else none

/-- `Fraction(s)` after sign-stripping: either `digits "/" digits`
(`ZeroDivisionError` on zero denominator), or a decimal mantissa with an
optional case-insensitive exponent. -/
def fractionTail (sgn : ℤ) (l : List Char) (val : String) : Except PyErr ℚ :=
  if charMem '/' l then
    match splitOnChar '/' l with
    | [a, b] =>
      if okDigitpart a && okDigitpart b then
        if digitsVal (b.filter Char.isDigit) = 0 then
          .error (.zeroDivisionError
            ("Fraction(" ++ intStr (sgn * (digitsVal (a.filter Char.isDigit) : ℤ)) ++ ", 0)"))
        else .ok ((sgn * (digitsVal (a.filter Char.isDigit) : ℤ) : ℚ)
          / (digitsVal (b.filter Char.isDigit) : ℚ))
      else .error (.valueError ("Invalid literal for Fraction: '" ++ val ++ "'"))
    | _ => .error (.valueError ("Invalid literal for Fraction: '" ++ val ++ "'"))
  else if charMem 'e' l || charMem 'E' l then
    match pyFloatCore (l.takeWhile (fun c => c ≠ 'e' && c ≠ 'E')),
        expParse ((l.dropWhile (fun c => c ≠ 'e' && c ≠ 'E')).drop 1) with
    | some q, some k => .ok ((sgn : ℚ) * q * (10 : ℚ) ^ (k : ℤ))
    | _, _ => .error (.valueError ("Invalid literal for Fraction: '" ++ val ++ "'"))
  else
    match pyFloatCore l with
    | some q => .ok ((sgn : ℚ) * q)
    | none => .error (.valueError ("Invalid literal for Fraction: '" ++ val ++ "'"))

/-- Python `fractions.Fraction(s)` on a string. -/
def fractionParse (val : String) : Except PyErr ℚ :=
  match stripWS val.toList with
  | '-' :: r => fractionTail (-1) r val
  | '+' :: r => fractionTail 1 r val
  | l => fractionTail 1 l val

/-- `frame_rate(val)`: four case-sensitive presets, otherwise
`Fraction(val)`. -/
def frame_rate (val : String) : Except PyErr ℚ :=
  if val = "ntsc" then .ok (30000 / 1001)
  else if val = "ntsc_film" then .ok (24000 / 1001)
  else if val = "pal" then .ok 25
  else if val = "film" then .ok 24
  else fractionParse val

/-- `sample_rate(val)`: `kHz`/`KHz` multiplies by 1000; otherwise the unit
must be empty or `Hz`; the result goes through `natural`. -/
def sample_rate (val : String) : Except PyErr ℤ :=
  match split_num_str (.str val) with
  | .error e => .error e
  | .ok (num, unit) =>
    if unit = "kHz" || unit = "KHz" then natural (.num (num * 1000))
    else
      match unit_check unit ["", "Hz"] with
      | .error e => .error e
      | .ok _ => natural (.num num)

/-- `time(val)`: colon forms become numeric strings (`M:S`, `H:M:S`,
propagating `ValueError` from `int`/`float`), unit suffixes become numeric
strings, a bare number must be integral and becomes an integer. -/
def time (val : String) : Except PyErr IntOrStr :=
  if charMem ':' val.toList then
    match splitOnChar ':' val.toList with
    | [a, b] =>
      match pyIntParse ⟨a⟩ with
      | none => .error (.valueError
          ("invalid literal for int() with base 10: '" ++ (⟨a⟩ : String) ++ "'"))
      | some m =>
        match pyFloatParse ⟨b⟩ with
        | none => .error (.valueError
            ("could not convert string to float: '" ++ (⟨b⟩ : String) ++ "'"))
        | some sec => .ok (.str (pyFloatStr ((m : ℚ) * 60 + sec)))
    | [a, b, c] =>
      match pyIntParse ⟨a⟩ with
      | none => .error (.valueError
          ("invalid literal for int() with base 10: '" ++ (⟨a⟩ : String) ++ "'"))
      | some hh =>
        match pyIntParse ⟨b⟩ with
        | none => .error (.valueError
            ("invalid literal for int() with base 10: '" ++ (⟨b⟩ : String) ++ "'"))
        | some mm =>
          match pyFloatParse ⟨c⟩ with
          | none => .error (.valueError
              ("could not convert string to float: '" ++ (⟨c⟩ : String) ++ "'"))
          | some sec => .ok (.str (pyFloatStr ((hh : ℚ) * 3600 + (mm : ℚ) * 60 + sec)))
    | _ => .error (.coerceError ("'" ++ val ++ "': Invalid time format"))
  else
    match split_num_str (.str val) with
    | .error e => .error e
    | .ok (num, unit) =>
      if unit ∈ ["s", "sec", "secs", "second", "seconds"] then .ok (.str (pyFloatStr num))
      else if unit ∈ ["m", "min", "mins", "minute", "minutes"] then
        .ok (.str (pyFloatStr (num * 60)))
      else if unit ∈ ["h", "hour", "hours"] then .ok (.str (pyFloatStr (num * 3600)))
      else
        match unit_check unit [""] with
        | .error e => .error e
        | .ok _ =>
          if num.den ≠ 1 then
            .error (.coerceError ("'" ++ val ++ "': Time specifier expects: integer?."))
          else .ok (.int (pyTrunc num))

/-- `anchor(val)`. -/
def anchor (val : String) : Except PyErr String :=
  if val ∈ ["tl", "tr", "bl", "br", "ce"] then .ok val
  else .error (.coerceError "Anchor must be: tl tr bl br ce")

/-- `if len(vals) == 1: vals.append(vals[0])` inside `margin`. -/
def dupSingle (vals : List (List Char)) : List (List Char) :=
  match vals with
  | [x] => [x, x]
  | _ => vals

/-- `margin(val)`: strip, split on `,`, duplicate a lone component, then
coerce both components through `time`. -/
def margin (val : String) : Except PyErr (IntOrStr × IntOrStr) :=
  match dupSingle (splitOnChar ',' (stripWS val.toList)) with
  | [a, b] =>
    match time ⟨a⟩ with
    | .error e => .error e
    | .ok x =>
      match time ⟨b⟩ with
      | .error e => .error e
      | .ok y => .ok (x, y)
  | _ => .error (.coerceError "--margin has too many arguments.")

/-- `time_range(val)`. -/
def time_range (val : String) : Except PyErr (List String) :=
  comma_coerce "time_range" val 2

/-- `speed_range(val)`. -/
def speed_range (val : String) : Except PyErr (ℚ × String × String) :=
  match comma_coerce "speed_range" val 3 with
  | .error e => .error e
  | .ok a =>
    match number (.str (a.getD 0 "")) with
    | .error e => .error e
    | .ok q => .ok (q, a.getD 1 "", a.getD 2 "")

/-- `align(val)`. -/
def align (val : String) : Except PyErr String :=
  if val = "left" then .ok "left"
  else if val = "center" then .ok "center"
  else if val = "right" then .ok "right"
  else .error (.coerceError "Align must be 'left', 'right', or 'center'")

/-- `stream(val)`: `"all"` or a natural number. -/
def stream (val : String) : Except PyErr IntOrStr :=
  if val = "all" then .ok (.str "all")
  else
    match natural (.str val) with
    | .error e => .error e
    | .ok n => .ok (.int n)

/-- `re.match("#[a-f0-9]{n}$", s)`: `#` followed by `n` lowercase hex
digits, optionally followed by a single trailing newline (Python `$`). -/
def matchHexN (n : ℕ) (l : List Char) : Bool :=
  match l with
  | '#' :: rest =>
    (rest.length = n && rest.all isHexDigit)
      || (rest.length = n + 1 && (rest.take n).all isHexDigit && rest.getLastD ' ' = '\n')
  | _ => false

/-- The static CSS color-name table of the source. -/
def colormap : List (String × String) := [
  ("aliceblue", "#f0f8ff"), ("antiquewhite", "#faebd7"), ("aqua", "#00ffff"),
  ("aquamarine", "#7fffd4"), ("azure", "#f0ffff"), ("beige", "#f5f5dc"),
  ("bisque", "#ffe4c4"), ("black", "#000000"), ("blanchedalmond", "#ffebcd"),
  ("blue", "#0000ff"), ("blueviolet", "#8a2be2"), ("brown", "#a52a2a"),
  ("burlywood", "#deb887"), ("cadetblue", "#5f9ea0"), ("chartreuse", "#7fff00"),
  ("chocolate", "#d2691e"), ("coral", "#ff7f50"), ("cornflowerblue", "#6495ed"),
  ("cornsilk", "#fff8dc"), ("crimson", "#dc143c"), ("cyan", "#00ffff"),
  ("darkblue", "#00008b"), ("darkcyan", "#008b8b"), ("darkgoldenrod", "#b8860b"),
  ("darkgray", "#a9a9a9"), ("darkgrey", "#a9a9a9"), ("darkgreen", "#006400"),
  ("darkkhaki", "#bdb76b"), ("darkmagenta", "#8b008b"), ("darkolivegreen", "#556b2f"),
  ("darkorange", "#ff8c00"), ("darkorchid", "#9932cc"), ("darkred", "#8b0000"),
  ("darksalmon", "#e9967a"), ("darkseagreen", "#8fbc8f"), ("darkslateblue", "#483d8b"),
  ("darkslategray", "#2f4f4f"), ("darkslategrey", "#2f4f4f"), ("darkturquoise", "#00ced1"),
  ("darkviolet", "#9400d3"), ("deeppink", "#ff1493"), ("deepskyblue", "#00bfff"),
  ("dimgray", "#696969"), ("dimgrey", "#696969"), ("dodgerblue", "#1e90ff"),
  ("firebrick", "#b22222"), ("floralwhite", "#fffaf0"), ("forestgreen", "#228b22"),
  ("fuchsia", "#ff00ff"), ("gainsboro", "#dcdcdc"), ("ghostwhite", "#f8f8ff"),
  ("gold", "#ffd700"), ("goldenrod", "#daa520"), ("gray", "#808080"),
  ("grey", "#808080"), ("green", "#008000"), ("greenyellow", "#adff2f"),
  ("honeydew", "#f0fff0"), ("hotpink", "#ff69b4"), ("indianred", "#cd5c5c"),
  ("indigo", "#4b0082"), ("ivory", "#fffff0"), ("khaki", "#f0e68c"),
  ("lavender", "#e6e6fa"), ("lavenderblush", "#fff0f5"), ("lawngreen", "#7cfc00"),
  ("lemonchiffon", "#fffacd"), ("lightblue", "#add8e6"), ("lightcoral", "#f08080"),
  ("lightcyan", "#e0ffff"), ("lightgoldenrodyellow", "#fafad2"), ("lightgreen", "#90ee90"),
  ("lightgray", "#d3d3d3"), ("lightgrey", "#d3d3d3"), ("lightpink", "#ffb6c1"),
  ("lightsalmon", "#ffa07a"), ("lightseagreen", "#20b2aa"), ("lightskyblue", "#87cefa"),
  ("lightslategray", "#778899"), ("lightslategrey", "#778899"), ("lightsteelblue", "#b0c4de"),
  ("lightyellow", "#ffffe0"), ("lime", "#00ff00"), ("limegreen", "#32cd32"),
  ("linen", "#faf0e6"), ("magenta", "#ff00ff"), ("maroon", "#800000"),
  ("mediumaquamarine", "#66cdaa"), ("mediumblue", "#0000cd"), ("mediumorchid", "#ba55d3"),
  ("mediumpurple", "#9370db"), ("mediumseagreen", "#3cb371"), ("mediumslateblue", "#7b68ee"),
  ("mediumspringgreen", "#00fa9a"), ("mediumturquoise", "#48d1cc"), ("mediumvioletred", "#c71585"),
  ("midnightblue", "#191970"), ("mintcream", "#f5fffa"), ("mistyrose", "#ffe4e1"),
  ("moccasin", "#ffe4b5"), ("navajowhite", "#ffdead"), ("navy", "#000080"),
  ("oldlace", "#fdf5e6"), ("olive", "#808000"), ("olivedrab", "#6b8e23"),
  ("orange", "#ffa500"), ("orangered", "#ff4500"), ("orchid", "#da70d6"),
  ("palegoldenrod", "#eee8aa"), ("palegreen", "#98fb98"), ("paleturquoise", "#afeeee"),
  ("palevioletred", "#db7093"), ("papayawhip", "#ffefd5"), ("peachpuff", "#ffdab9"),
  ("peru", "#cd853f"), ("pink", "#ffc0cb"), ("plum", "#dda0dd"),
  ("powderblue", "#b0e0e6"), ("purple", "#800080"), ("rebeccapurple", "#663399"),
  ("red", "#ff0000"), ("rosybrown", "#bc8f8f"), ("royalblue", "#4169e1"),
  ("saddlebrown", "#8b4513"), ("salmon", "#fa8072"), ("sandybrown", "#f4a460"),
  ("seagreen", "#2e8b57"), ("seashell", "#fff5ee"), ("sienna", "#a0522d"),
  ("silver", "#c0c0c0"), ("skyblue", "#87ceeb"), ("slateblue", "#6a5acd"),
  ("slategray", "#708090"), ("slategrey", "#708090"), ("snow", "#fffafa"),
  ("springgreen", "#00ff7f"), ("steelblue", "#4682b4"), ("tan", "#d2b48c"),
  ("teal", "#008080"), ("thistle", "#d8bfd8"), ("tomato", "#ff6347"),
  ("turquoise", "#40e0d0"), ("violet", "#ee82ee"), ("wheat", "#f5deb3"),
  ("white", "#ffffff"), ("whitesmoke", "#f5f5f5"), ("yellow", "#ffff00"),
  ("yellowgreen", "#9acd32")]

/-- The name (after table substitution) the `color` body works on. -/
def colorResolve (val : String) : String :=
  match colormap.lookup (pyLower val) with
  | some hex => hex
  | none => pyLower val

/-- `color(val)`: lowercase, substitute from the table, expand a 3-digit
hex form, pass a 6-digit hex form through; raises `ValueError` otherwise. -/
def color (val : String) : Except PyErr String :=
  if matchHexN 3 (colorResolve val).toList then
    .ok ⟨'#' :: ((colorResolve val).toList.drop 1).foldr (fun c acc => c :: c :: acc) []⟩
  else if matchHexN 6 (colorResolve val).toList then .ok (colorResolve val)
  else .error (.valueError ("Invalid Color: '" ++ colorResolve val ++ "'"))

/-- `resolution(val)`: `None` passes through; otherwise exactly two
comma-separated components, each through `natural`. -/
def resolution (val : Option String) : Except PyErr (Option (ℤ × ℤ)) :=
  match val with
  | none => .ok none
  | some v =>
    match splitOnChar ',' (stripWS v.toList) with
    | [a, b] =>
      match natural (.str ⟨a⟩) with
      | .error e => .error e
      | .ok x =>
        match natural (.str ⟨b⟩) with
        | .error e => .error e
        | .ok y => .ok (some (x, y))
    | _ => .error (.coerceError ("'" ++ v ++ "': Resolution takes two numbers"))

/-- `pos(val)`: tokenize the first component; a `%` unit scales the
reference dimension, otherwise the unit must be empty; rounds. -/
def pos (val : NumOrStr × ℤ) : Except PyErr ℤ :=
  match split_num_str val.1 with
  | .error e => .error e
  | .ok (num, unit) =>
    if unit = "%" then .ok (pyRound ((num / 100) * (val.2 : ℚ)))
    else
      match unit_check unit [""] with
      | .error e => .error e
      | .ok _ => .ok (pyRound num)

/-! ## Basic lemmas about the helper functions -/

theorem charMem_eq_true_iff (c : Char) (l : List Char) : charMem c l = true ↔ c ∈ l := by
  induction l with
  | nil => simp [charMem]
  | cons a r ih =>
    simp [charMem, ih, List.mem_cons]
    constructor
    · rintro (h | h)
      · exact Or.inl h.symm
      · exact Or.inr h
    · rintro (h | h)
      · exact Or.inl h.symm
      · exact Or.inr h

theorem splitOnChar_ne_nil (c : Char) (l : List Char) : splitOnChar c l ≠ [] := by
  cases l with
  | nil => simp [splitOnChar]
  | cons a rest =>
    unfold splitOnChar
    split
    · simp
    · split <;> simp

theorem splitOnChar_length (c : Char) (l : List Char) :
    (splitOnChar c l).length = l.count c + 1 := by
  induction l with
  | nil => simp [splitOnChar]
  | cons a rest ih =>
    unfold splitOnChar
    by_cases h : a = c
    · simp only [if_pos h, List.length_cons, ih]
      rw [List.count_cons]
      simp [h]
    · simp only [if_neg h]
      rw [List.count_cons]
      simp only [beq_iff_eq, h, if_false]
      cases hs : splitOnChar c rest with
      | nil => exact absurd hs (splitOnChar_ne_nil c rest)
      | cons x t =>
        have := ih
        rw [hs] at this
        simpa using this

theorem charMem_of_split_length (c : Char) (l : List Char)
    (h : 2 ≤ (splitOnChar c l).length) : charMem c l = true := by
  rw [splitOnChar_length] at h
  rw [charMem_eq_true_iff]
  have : 1 ≤ l.count c := by omega
  exact List.count_pos_iff.mp this

theorem splitOnChar_not_mem (c : Char) (l : List Char) (h : c ∉ l) :
    splitOnChar c l = [l] := by
  induction l with
  | nil => rfl
  | cons a rest ih =>
    have ha : a ≠ c := fun hh => h (hh ▸ List.mem_cons_self a rest)
    have hr : c ∉ rest := fun hh => h (List.mem_cons_of_mem a hh)
    unfold splitOnChar
    rw [if_neg ha, ih hr]

theorem splitOnChar_append (c : Char) (xs ys : List Char) (h : c ∉ xs) :
    splitOnChar c (xs ++ c :: ys) = xs :: splitOnChar c ys := by
  induction xs with
  | nil => simp [splitOnChar]
  | cons a rest ih =>
    have ha : a ≠ c := fun hh => h (hh ▸ List.mem_cons_self a rest)
    have hr : c ∉ rest := fun hh => h (List.mem_cons_of_mem a hh)
    simp only [List.cons_append, splitOnChar, if_neg ha]
    rw [List.append_eq, ih hr]

theorem pyTrunc_intCast (n : ℤ) : pyTrunc (n : ℚ) = n := by
  unfold pyTrunc
  split
  · rw [← Int.cast_neg, Int.floor_intCast]
    omega
  · rw [Int.floor_intCast]

theorem pyTrunc_den_one (q : ℚ) (h : q.den = 1) : pyTrunc q = q.num := by
  have hq : (q.num : ℚ) = q := by
    conv_rhs => rw [← Rat.num_div_den q]
    rw [h]
    simp
  have h2 := pyTrunc_intCast q.num
  rwa [hq] at h2

theorem mk_toList (s : String) : (⟨s.toList⟩ : String) = s := by
  cases s
  rfl

/-- `number` passes an already-numeric value straight through. -/
theorem number_num (q : ℚ) : number (.num q) = .ok q := by
  with_unfolding_all rfl

/-! ## Claim theorems -/

/-- Claim C10: the coercer `src` returns the parsed integer exactly when
the whole string parses (via Python `int`) as an integer strictly greater
than 0, and otherwise — non-numeric strings, negative integers, and `"0"`
— returns the original string unchanged; it never raises, as reflected by
its total (non-`Except`) type. -/
theorem C10_src :
    (∀ s n, pyIntParse s = some n →
      (0 < n → src s = .int n) ∧ (n ≤ 0 → src s = .str s)) ∧
    (∀ s, pyIntParse s = none → src s = .str s) ∧
    src "0" = .str "0" ∧ src "5" = .int 5 ∧
    src "-3" = .str "-3" ∧ src "abc" = .str "abc" := by
  refine ⟨?_, ?_, ?_, ?_, ?_, ?_⟩
  · intro s n h
    simp only [src, h]
    constructor
    · intro h0; rw [if_pos h0]
    · intro h0; rw [if_neg (by omega)]
  · intro s h
    simp only [src, h]
  · with_unfolding_all rfl
  · with_unfolding_all rfl
  · with_unfolding_all rfl
  · with_unfolding_all rfl

/-- Witness for C10 at concrete inputs: `"7"` parses as the positive
integer 7, `"0"` parses as 0 which is not positive, `"abc"` does not
parse. -/
theorem C10_src_witness :
    src "7" = .int 7 ∧ src "0" = .str "0" ∧ src "abc" = .str "abc" :=
  ⟨(C10_src.1 "7" 7 (by with_unfolding_all rfl)).1 (by norm_num),
   (C10_src.1 "0" 0 (by with_unfolding_all rfl)).2 (le_refl 0),
   C10_src.2.1 "abc" (by with_unfolding_all rfl)⟩

/-- Claim C3: `speed` delegates to `number` and clamps: whenever the
delegated result is ≤ 0 or > 99999 it returns `99999.0` without raising,
otherwise it returns the result; `threshold` on the same delegate
hard-rejects results outside `[0, 1]`. -/
theorem C3_speed_clamp :
    (∀ s q, number (.str s) = .ok q →
      ((q ≤ 0 ∨ 99999 < q) → speed s = .ok 99999) ∧
      (0 < q → q ≤ 99999 → speed s = .ok q)) ∧
    speed "0" = .ok 99999 ∧ speed "-5" = .ok 99999 ∧
    speed "100000" = .ok 99999 ∧ speed "2" = .ok 2 ∧
    (∀ s q, number (.str s) = .ok q → (1 < q ∨ q < 0) →
      threshold (.str s) = .error (.coerceError
        ("'" ++ s ++ "': Threshold must be between 0 and 1 (0%-100%)"))) ∧
    threshold (.str "1.5") = .error (.coerceError
      "'1.5': Threshold must be between 0 and 1 (0%-100%)") ∧
    threshold (.str "50%") = .ok (1 / 2) := by
  refine ⟨?_, ?_, ?_, ?_, ?_, ?_, ?_, ?_⟩
  · intro s q h
    simp only [speed, h]
    constructor
    · intro hq; rw [if_pos hq]
    · intro h1 h2
      rw [if_neg]
      push_neg
      exact ⟨h1, h2⟩
  · with_unfolding_all rfl
  · with_unfolding_all rfl
  · with_unfolding_all rfl
  · with_unfolding_all rfl
  · intro s q h hq
    simp only [threshold, h]
    rw [if_pos hq]
    rfl
  · with_unfolding_all rfl
  · with_unfolding_all rfl

/-- Witness for C3 at concrete inputs: `number "0" = 0 ≤ 0` clamps,
`number "2" = 2` passes through, `number "1.5" = 3/2 > 1` is rejected by
`threshold`. -/
theorem C3_speed_clamp_witness :
    speed "0" = .ok 99999 ∧ speed "2" = .ok 2 ∧
    threshold (.str "1.5") = .error (.coerceError
      "'1.5': Threshold must be between 0 and 1 (0%-100%)") :=
  ⟨(C3_speed_clamp.1 "0" 0 (by with_unfolding_all rfl)).1 (Or.inl (le_refl 0)),
   (C3_speed_clamp.1 "2" 2 (by with_unfolding_all rfl)).2 (by norm_num) (by norm_num),
   C3_speed_clamp.2.2.2.2.2.1 "1.5" (3 / 2) (by with_unfolding_all rfl)
     (Or.inl (by norm_num))⟩

/-- Claim C5: `frame_rate` maps the four case-sensitive presets to exact
rationals (`30000/1001`, `24000/1001`, `25`, `24` — the numerator/
denominator conjuncts record that the equalities are exact rational facts,
not float approximations), and parses any other string with `Fraction`,
failing when it is not parseable as a rational literal (case matters:
`"NTSC"` fails). -/
theorem C5_frame_rate :
    frame_rate "ntsc" = .ok (30000 / 1001 : ℚ) ∧
    frame_rate "ntsc_film" = .ok (24000 / 1001 : ℚ) ∧
    frame_rate "pal" = .ok (25 : ℚ) ∧
    frame_rate "film" = .ok (24 : ℚ) ∧
    (30000 / 1001 : ℚ).num = 30000 ∧ (30000 / 1001 : ℚ).den = 1001 ∧
    (24000 / 1001 : ℚ).num = 24000 ∧ (24000 / 1001 : ℚ).den = 1001 ∧
    (∀ s, s ≠ "ntsc" → s ≠ "ntsc_film" → s ≠ "pal" → s ≠ "film" →
      frame_rate s = fractionParse s) ∧
    fractionParse "23.976" = .ok (2997 / 125 : ℚ) ∧
    fractionParse "24000/1001" = .ok (24000 / 1001 : ℚ) ∧
    fractionParse "NTSC" = .error (.valueError "Invalid literal for Fraction: 'NTSC'") := by
  refine ⟨?_, ?_, ?_, ?_, ?_, ?_, ?_, ?_, ?_, ?_, ?_, ?_⟩
  · with_unfolding_all rfl
  · with_unfolding_all rfl
  · with_unfolding_all rfl
  · with_unfolding_all rfl
  · with_unfolding_all rfl
  · with_unfolding_all rfl
  · with_unfolding_all rfl
  · with_unfolding_all rfl
  · intro s h1 h2 h3 h4
    unfold frame_rate
    rw [if_neg h1, if_neg h2, if_neg h3, if_neg h4]
  · with_unfolding_all rfl
  · with_unfolding_all rfl
  · with_unfolding_all rfl

/-- Witness for C5: applying the non-preset conjunct at `"30000/1001"`
and at the case-variant `"NTSC"`. -/
theorem C5_frame_rate_witness :
    frame_rate "30000/1001" = fractionParse "30000/1001" ∧
    frame_rate "NTSC" = fractionParse "NTSC" :=
  ⟨C5_frame_rate.2.2.2.2.2.2.2.2.1 "30000/1001"
      (by with_unfolding_all decide) (by with_unfolding_all decide)
      (by with_unfolding_all decide) (by with_unfolding_all decide),
   C5_frame_rate.2.2.2.2.2.2.2.2.1 "NTSC"
      (by with_unfolding_all decide) (by with_unfolding_all decide)
      (by with_unfolding_all decide) (by with_unfolding_all decide)⟩

/-- Claim C7: `db_threshold` tokenizes its input; with unit exactly `dB`
it fails with "dB only goes up to 0" when the magnitude is > 0 and
otherwise returns the amplitude `10 ** (num/20)` (`amp e` denotes
`10 ** e`; for `"-20dB"` the exponent is −1 and `10 ^ (−1) = 1/10`, i.e.
exactly the claimed 0.1); with any other unit it delegates to
`threshold`. -/
theorem C7_db_threshold :
    (∀ s q u, split_num_str (.str s) = .ok (q, u) →
      (u = "dB" →
        (0 < q → db_threshold s = .error (.coerceError "dB only goes up to 0")) ∧
        (q ≤ 0 → db_threshold s = .ok (.amp (q / 20)))) ∧
      (u ≠ "dB" → db_threshold s =
        match threshold (.str s) with
        | .error e => .error e
        | .ok t => .ok (.lin t))) ∧
    db_threshold "-20dB" = .ok (.amp (-1)) ∧
    (10 : ℚ) ^ (-1 : ℤ) = 1 / 10 ∧
    db_threshold "5dB" = .error (.coerceError "dB only goes up to 0") := by
  refine ⟨?_, ?_, ?_, ?_⟩
  · intro s q u h
    constructor
    · intro hu
      simp only [db_threshold, h]
      constructor
      · intro hq
        rw [if_pos hu, if_pos hq]
      · intro hq
        rw [if_pos hu, if_neg (not_lt.mpr hq)]
    · intro hu
      simp only [db_threshold, h]
      rw [if_neg hu]
  · with_unfolding_all rfl
  · with_unfolding_all rfl
  · with_unfolding_all rfl

/-- Witness for C7: the tokenizer sends `"-20dB"` to `(-20, "dB")` with
magnitude ≤ 0 (amplitude exponent −1), `"5dB"` to `(5, "dB")` with
magnitude > 0 (rejected), and `"0.5"` to unit `""` (delegated to
`threshold`). -/
theorem C7_db_threshold_witness :
    db_threshold "-20dB" = .ok (.amp (-20 / 20)) ∧
    db_threshold "5dB" = .error (.coerceError "dB only goes up to 0") ∧
    db_threshold "0.5" = match threshold (.str "0.5") with
      | .error e => .error e
      | .ok t => .ok (.lin t) :=
  ⟨((C7_db_threshold.1 "-20dB" (-20) "dB" (by with_unfolding_all rfl)).1
      rfl).2 (by norm_num),
   ((C7_db_threshold.1 "5dB" 5 "dB" (by with_unfolding_all rfl)).1
      rfl).1 (by norm_num),
   (C7_db_threshold.1 "0.5" (1 / 2) "" (by with_unfolding_all rfl)).2
      (by simp)⟩

/-- Claim C6: `color` lowercases its input, substitutes a matching name
from the static table (whose entries are all 6-digit forms, so they pass
through unchanged), expands a `#`+3-hex-digit pattern by doubling each
digit, passes a `#`+6-hex-digit pattern through, and fails on anything
else; `color "red" = "#ff0000"`, `color "#3AE" = "#33aaee"`,
`color "#zzz"` fails. -/
theorem C6_color :
    color "red" = .ok "#ff0000" ∧
    color "#3AE" = .ok "#33aaee" ∧
    color "#zzz" = .error (.valueError "Invalid Color: '#zzz'") ∧
    color "RED" = .ok "#ff0000" ∧
    (∀ s hex, colormap.lookup (pyLower s) = some hex → colorResolve s = hex) ∧
    (∀ s, colormap.lookup (pyLower s) = none → colorResolve s = pyLower s) ∧
    colormap.all (fun p => matchHexN 6 p.2.toList && !matchHexN 3 p.2.toList) = true ∧
    (∀ s, matchHexN 3 (colorResolve s).toList = true →
      color s = .ok ⟨'#' :: ((colorResolve s).toList.drop 1).foldr
        (fun c acc => c :: c :: acc) []⟩) ∧
    (∀ s, matchHexN 3 (colorResolve s).toList = false →
      matchHexN 6 (colorResolve s).toList = true → color s = .ok (colorResolve s)) ∧
    (∀ s, matchHexN 3 (colorResolve s).toList = false →
      matchHexN 6 (colorResolve s).toList = false →
      color s = .error (.valueError ("Invalid Color: '" ++ colorResolve s ++ "'"))) := by
  refine ⟨?_, ?_, ?_, ?_, ?_, ?_, ?_, ?_, ?_, ?_⟩
  · with_unfolding_all rfl
  · with_unfolding_all rfl
  · with_unfolding_all rfl
  · with_unfolding_all rfl
  · intro s hex h
    unfold colorResolve
    rw [h]
  · intro s h
    unfold colorResolve
    rw [h]
  · with_unfolding_all rfl
  · intro s h
    simp only [color, h, if_true]
  · intro s h3 h6
    simp only [color, h3, h6, Bool.false_eq_true, if_false, if_true]
  · intro s h3 h6
    simp only [color, h3, h6, Bool.false_eq_true, if_false]

/-- Witness for C6: the general conjuncts applied at `"red"` (table hit,
6-digit pass-through), `"#3AE"` (3-digit expansion) and `"#zzz"`
(failure). -/
theorem C6_color_witness :
    colorResolve "red" = "#ff0000" ∧
    color "#3AE" = .ok "#33aaee" ∧
    color "#zzz" = .error (.valueError "Invalid Color: '#zzz'") :=
  ⟨C6_color.2.2.2.2.1 "red" "#ff0000" (by with_unfolding_all rfl),
   by
    have h := C6_color.2.2.2.2.2.2.2.1 "#3AE" (by with_unfolding_all rfl)
    rwa [show (⟨'#' :: (((colorResolve "#3AE").toList.drop 1).foldr
        (fun c acc => c :: c :: acc) [])⟩ : String) = "#33aaee"
      by with_unfolding_all rfl] at h,
   C6_color.2.2.2.2.2.2.2.2.2 "#zzz" (by with_unfolding_all rfl)
     (by with_unfolding_all rfl)⟩

/-- Claim C4: `time` on a token with `:` splits it, computing
`minutes*60 + seconds` for 2 parts and `hours*3600 + minutes*60 + seconds`
for 3 parts (any other part count fails), returning numeric strings; the
unit suffixes `s`/`m`/`h` and their aliases multiply by 1/60/3600 and
return numeric strings; with no unit the value must be integral and an
integer is returned. -/
theorem C4_time :
    time "1:30" = .ok (.str "90.0") ∧
    time "1:01:01" = .ok (.str "3661.0") ∧
    time "5s" = .ok (.str "5.0") ∧
    time "5" = .ok (.int 5) ∧
    (∀ s a b m q, splitOnChar ':' s.toList = [a, b] →
      pyIntParse ⟨a⟩ = some m → pyFloatParse ⟨b⟩ = some q →
      time s = .ok (.str (pyFloatStr ((m : ℚ) * 60 + q)))) ∧
    (∀ s a b c hh mm q, splitOnChar ':' s.toList = [a, b, c] →
      pyIntParse ⟨a⟩ = some hh → pyIntParse ⟨b⟩ = some mm → pyFloatParse ⟨c⟩ = some q →
      time s = .ok (.str (pyFloatStr ((hh : ℚ) * 3600 + (mm : ℚ) * 60 + q)))) ∧
    (∀ s, 3 < (splitOnChar ':' s.toList).length →
      time s = .error (.coerceError ("'" ++ s ++ "': Invalid time format"))) ∧
    (∀ s q u, charMem ':' s.toList = false → split_num_str (.str s) = .ok (q, u) →
      (u ∈ ["s", "sec", "secs", "second", "seconds"] →
        time s = .ok (.str (pyFloatStr q))) ∧
      (u ∈ ["m", "min", "mins", "minute", "minutes"] →
        time s = .ok (.str (pyFloatStr (q * 60)))) ∧
      (u ∈ ["h", "hour", "hours"] → time s = .ok (.str (pyFloatStr (q * 3600)))) ∧
      (u = "" → q.den = 1 → time s = .ok (.int q.num)) ∧
      (u = "" → q.den ≠ 1 →
        time s = .error (.coerceError ("'" ++ s ++ "': Time specifier expects: integer?.")))) := by
  refine ⟨?_, ?_, ?_, ?_, ?_, ?_, ?_, ?_⟩
  · with_unfolding_all rfl
  · with_unfolding_all rfl
  · with_unfolding_all rfl
  · with_unfolding_all rfl
  · intro s a b m q hsplit ha hb
    have hm : charMem ':' s.toList = true :=
      charMem_of_split_length ':' s.toList (by rw [hsplit]; norm_num)
    simp only [time, hm, if_true, hsplit, ha, hb]
  · intro s a b c hh mm q hsplit ha hb hc
    have hm : charMem ':' s.toList = true :=
      charMem_of_split_length ':' s.toList (by rw [hsplit]; norm_num)
    simp only [time, hm, if_true, hsplit, ha, hb, hc]
  · intro s h
    have hm : charMem ':' s.toList = true :=
      charMem_of_split_length ':' s.toList (by omega)
    simp only [time, hm, if_true]
    rcases hsplit : splitOnChar ':' s.toList with _ | ⟨a, _ | ⟨b, _ | ⟨c, _ | ⟨d, t⟩⟩⟩⟩
    · exact absurd hsplit (splitOnChar_ne_nil ':' s.toList)
    · rfl
    · exfalso; rw [hsplit] at h; simp at h
    · exfalso; rw [hsplit] at h; simp at h
    · rfl
  · intro s q u hm h
    simp only [time, hm, Bool.false_eq_true, if_false, h]
    refine ⟨?_, ?_, ?_, ?_, ?_⟩
    · intro hu; rw [if_pos hu]
    · intro hu
      fin_cases hu <;>
        rw [if_neg (by decide), if_pos (by decide)]
    · intro hu
      fin_cases hu <;>
        rw [if_neg (by decide), if_neg (by decide), if_pos (by decide)]
    · intro hu h1
      subst hu
      rw [if_neg (by decide), if_neg (by decide), if_neg (by decide)]
      simp only [unit_check, if_pos (by decide : ("" : String) ∈ [""])]
      rw [if_neg (by simp [h1]), pyTrunc_den_one q h1]
    · intro hu h1
      subst hu
      rw [if_neg (by decide), if_neg (by decide), if_neg (by decide)]
      simp only [unit_check, if_pos (by decide : ("" : String) ∈ [""])]
      rw [if_pos h1]

/-- Witness for C4: the general conjuncts applied at `"1:30"`,
`"1:01:01"`, `"1:2:3:4"` (too many parts) and `"5s"`/`"5"`. -/
theorem C4_time_witness :
    time "1:30" = .ok (.str (pyFloatStr ((1 : ℚ) * 60 + 30))) ∧
    time "1:01:01" = .ok (.str (pyFloatStr ((1 : ℚ) * 3600 + (1 : ℚ) * 60 + 1))) ∧
    time "1:2:3:4" = .error (.coerceError "'1:2:3:4': Invalid time format") ∧
    time "5s" = .ok (.str (pyFloatStr (5 : ℚ))) ∧
    time "5" = .ok (.int 5) :=
  ⟨C4_time.2.2.2.2.1 "1:30" ['1'] ['3', '0'] 1 30 (by with_unfolding_all rfl)
      (by with_unfolding_all rfl) (by with_unfolding_all rfl),
   C4_time.2.2.2.2.2.1 "1:01:01" ['1'] ['0', '1'] ['0', '1'] 1 1 1
      (by with_unfolding_all rfl) (by with_unfolding_all rfl)
      (by with_unfolding_all rfl) (by with_unfolding_all rfl),
   C4_time.2.2.2.2.2.2.1 "1:2:3:4" (by with_unfolding_all decide),
   (C4_time.2.2.2.2.2.2.2 "5s" 5 "s" (by with_unfolding_all rfl)
      (by with_unfolding_all rfl)).1 (by decide),
   by
    have h := ((C4_time.2.2.2.2.2.2.2 "5" 5 "" (by with_unfolding_all rfl)
      (by with_unfolding_all rfl)).2.2.2.1 rfl (by with_unfolding_all rfl))
    rwa [show ((5 : ℚ).num) = 5 by with_unfolding_all rfl] at h⟩

/-- Claim C2 counterexample: the fraction branch performs true division,
not integer division: `number "1/2"` is `1/2 = 0.5`, whereas the integer
division of 1 by 2 is 0. -/
theorem C2_number_counterexample :
    number (.str "1/2") = .ok (1 / 2 : ℚ) ∧
    ((1 : ℤ) / (2 : ℤ)) = 0 ∧
    (1 / 2 : ℚ) ≠ ((0 : ℤ) : ℚ) :=
  ⟨by with_unfolding_all rfl, by decide, by norm_num⟩

/-- Claim C2 (amended): for a string containing `/`, `number` fails unless
there is exactly one slash, fails unless both sides parse as integers,
fails when the denominator is zero, and otherwise returns the exact (true)
division of numerator by denominator; `number "1/2" = 0.5`, `number "1/0"`
fails, `number "50%" = 0.5`, and any other non-empty unit fails. -/
theorem C2_number :
    (∀ s, charMem '/' s.toList = true → (splitOnChar '/' s.toList).length ≠ 2 →
      number (.str s) = .error (.coerceError ("'" ++ s ++ "': One divisor allowed."))) ∧
    (∀ s a b, splitOnChar '/' s.toList = [a, b] → pyIntParse ⟨a⟩ = none →
      number (.str s) = .error (.coerceError
        ("'" ++ s ++ "': Numerator and Denominator must be integers."))) ∧
    (∀ s a b n, splitOnChar '/' s.toList = [a, b] → pyIntParse ⟨a⟩ = some n →
      pyIntParse ⟨b⟩ = none →
      number (.str s) = .error (.coerceError
        ("'" ++ s ++ "': Numerator and Denominator must be integers."))) ∧
    (∀ s a b n, splitOnChar '/' s.toList = [a, b] → pyIntParse ⟨a⟩ = some n →
      pyIntParse ⟨b⟩ = some 0 →
      number (.str s) = .error (.coerceError
        ("'" ++ s ++ "': Denominator must not be zero."))) ∧
    (∀ s a b n d, splitOnChar '/' s.toList = [a, b] → pyIntParse ⟨a⟩ = some n →
      pyIntParse ⟨b⟩ = some d → d ≠ 0 →
      number (.str s) = .ok ((n : ℚ) / (d : ℚ))) ∧
    number (.str "1/2") = .ok (1 / 2 : ℚ) ∧
    number (.str "1/0") = .error (.coerceError "'1/0': Denominator must not be zero.") ∧
    number (.str "50%") = .ok (1 / 2 : ℚ) ∧
    (∀ s q u, charMem '/' s.toList = false → split_num_str (.str s) = .ok (q, u) →
      (u = "%" → number (.str s) = .ok (q / 100)) ∧
      (u ≠ "%" → u ≠ "" →
        number (.str s) = .error (.coerceError ("Unknown unit: '" ++ u ++ "'"))) ∧
      (u = "" → number (.str s) = .ok q)) := by
  refine ⟨?_, ?_, ?_, ?_, ?_, ?_, ?_, ?_, ?_⟩
  · intro s hm hlen
    simp only [number, hm, if_true]
    rcases hsplit : splitOnChar '/' s.toList with _ | ⟨a, _ | ⟨b, _ | ⟨c, t⟩⟩⟩
    · exact absurd hsplit (splitOnChar_ne_nil '/' s.toList)
    · rfl
    · exact absurd (by rw [hsplit]; rfl) hlen
    · rfl
  · intro s a b hsplit ha
    have hm : charMem '/' s.toList = true :=
      charMem_of_split_length '/' s.toList (by rw [hsplit]; norm_num)
    simp only [number, hm, if_true, hsplit, ha]
  · intro s a b n hsplit ha hb
    have hm : charMem '/' s.toList = true :=
      charMem_of_split_length '/' s.toList (by rw [hsplit]; norm_num)
    simp only [number, hm, if_true, hsplit, ha, hb]
  · intro s a b n hsplit ha hb
    have hm : charMem '/' s.toList = true :=
      charMem_of_split_length '/' s.toList (by rw [hsplit]; norm_num)
    simp only [number, hm, if_true, hsplit, ha, hb, if_pos rfl]
  · intro s a b n d hsplit ha hb hd
    have hm : charMem '/' s.toList = true :=
      charMem_of_split_length '/' s.toList (by rw [hsplit]; norm_num)
    simp only [number, hm, if_true, hsplit, ha, hb]
    rw [if_neg hd]
  · with_unfolding_all rfl
  · with_unfolding_all rfl
  · with_unfolding_all rfl
  · intro s q u hm h
    simp only [number, hm, Bool.false_eq_true, if_false, numberTail, h]
    refine ⟨?_, ?_, ?_⟩
    · intro hu; rw [if_pos hu]
    · intro hu1 hu2
      rw [if_neg hu1]
      simp only [unit_check]
      rw [if_neg (by simp [hu2])]
    · intro hu
      subst hu
      rw [if_neg (by decide)]
      simp only [unit_check, if_pos (by decide : ("" : String) ∈ [""])]

/-- Witness for C2 at concrete inputs: `"1/2"` (true division),
`"1/0"` (zero denominator), `"a/2"` (non-integer side), `"1/2/3"` (two
slashes), `"50%"` (percent unit) and `"5x"` (bad unit). -/
theorem C2_number_witness :
    number (.str "1/2") = .ok ((1 : ℚ) / (2 : ℚ)) ∧
    number (.str "1/0") = .error (.coerceError "'1/0': Denominator must not be zero.") ∧
    number (.str "a/2") = .error (.coerceError
      "'a/2': Numerator and Denominator must be integers.") ∧
    number (.str "1/2/3") = .error (.coerceError "'1/2/3': One divisor allowed.") ∧
    number (.str "50%") = .ok ((50 : ℚ) / 100) ∧
    number (.str "5x") = .error (.coerceError "Unknown unit: 'x'") :=
  ⟨C2_number.2.2.2.2.1 "1/2" ['1'] ['2'] 1 2 (by with_unfolding_all rfl)
      (by with_unfolding_all rfl) (by with_unfolding_all rfl) (by norm_num),
   C2_number.2.2.2.1 "1/0" ['1'] ['0'] 1 (by with_unfolding_all rfl)
      (by with_unfolding_all rfl) (by with_unfolding_all rfl),
   C2_number.2.1 "a/2" ['a'] ['2'] (by with_unfolding_all rfl)
      (by with_unfolding_all rfl),
   C2_number.1 "1/2/3" (by with_unfolding_all rfl) (by with_unfolding_all decide),
   (C2_number.2.2.2.2.2.2.2.2 "50%" 50 "%" (by with_unfolding_all rfl)
      (by with_unfolding_all rfl)).1 rfl,
   ((C2_number.2.2.2.2.2.2.2.2 "5x" 5 "x" (by with_unfolding_all rfl)
      (by with_unfolding_all rfl)).2.1 (by decide) (by decide))⟩

/-- `natural` only succeeds with a non-negative integer result. -/
theorem natural_ok_nonneg (v : NumOrStr) (n : ℤ) (h : natural v = .ok n) : 0 ≤ n := by
  unfold natural at h
  split at h
  · exact absurd h (by simp)
  · split_ifs at h with h1 h2 h3
    cases h
    rw [pyTrunc, if_neg h3]
    exact Int.le_floor.mpr (by exact_mod_cast not_lt.mp h3)

/-- `threshold` only succeeds with a result in `[0, 1]`. -/
theorem threshold_ok_bounds (v : NumOrStr) (q : ℚ) (h : threshold v = .ok q) :
    number v = .ok q ∧ 0 ≤ q ∧ q ≤ 1 := by
  unfold threshold at h
  split at h
  · exact absurd h (by simp)
  · rename_i num heq
    split_ifs at h with h1
    cases h
    push_neg at h1
    exact ⟨heq, h1.2, h1.1⟩

/-- Claim C9: for the coercers that accept an already-typed numeric value
as well as a string (`natural`, `number`, `threshold`; the tokenizer
passes numeric input through with an empty unit), feeding a successful
output back in succeeds and returns the same value. -/
theorem C9_roundtrip :
    (∀ v n, natural v = .ok n → natural (.num (n : ℚ)) = .ok n) ∧
    (∀ v q, number v = .ok q → number (.num q) = .ok q) ∧
    (∀ v q, threshold v = .ok q → threshold (.num q) = .ok q) := by
  refine ⟨?_, ?_, ?_⟩
  · intro v n h
    have hn : 0 ≤ n := natural_ok_nonneg v n h
    simp only [natural, split_num_str]
    rw [if_neg (by simp), if_neg (by simp [Rat.den_intCast]),
      if_neg (by rw [not_lt]; exact_mod_cast hn), pyTrunc_intCast]
  · intro v q _
    exact number_num q
  · intro v q h
    obtain ⟨_, h0, h1⟩ := threshold_ok_bounds v q h
    simp only [threshold, number_num]
    rw [if_neg (by push_neg; exact ⟨h1, h0⟩)]

/-- Witness for C9: round-trips of `natural "5"`, `number "1/2"` and
`threshold "50%"`. -/
theorem C9_roundtrip_witness :
    natural (.num ((5 : ℤ) : ℚ)) = .ok 5 ∧
    number (.num (1 / 2 : ℚ)) = .ok (1 / 2 : ℚ) ∧
    threshold (.num (1 / 2 : ℚ)) = .ok (1 / 2 : ℚ) :=
  ⟨C9_roundtrip.1 (.str "5") 5 (by with_unfolding_all rfl),
   C9_roundtrip.2.1 (.str "1/2") (1 / 2) (by with_unfolding_all rfl),
   C9_roundtrip.2.2 (.str "50%") (1 / 2) (by with_unfolding_all rfl)⟩

/-- If `dropWhile` keeps a list intact, appending a non-matching character
and more keeps the combined list intact. -/
theorem dropWhile_append_cons (p : Char → Bool) (xs ys : List Char) (c : Char)
    (hc : p c = false) (h : xs.dropWhile p = xs) :
    (xs ++ c :: ys).dropWhile p = xs ++ c :: ys := by
  cases xs with
  | nil => simp [List.dropWhile_cons, hc]
  | cons a t =>
    have hpa : p a = false := by
      cases hv : p a
      · rfl
      · exfalso
        rw [List.dropWhile_cons, if_pos hv] at h
        have hl : (t.dropWhile p).length ≤ t.length :=
      (List.dropWhile_sublist p).length_le
        rw [h] at hl
        simp at hl
    simp [List.dropWhile_cons, hpa]

/-- A list fixed by `stripWS` is fixed by each one-sided strip. -/
theorem stripWS_parts (t : List Char) (h : stripWS t = t) :
    t.dropWhile isPySpace = t ∧ t.reverse.dropWhile isPySpace = t.reverse := by
  unfold stripWS at h
  have len1 : (t.dropWhile isPySpace).length ≤ t.length :=
    (List.dropWhile_sublist isPySpace).length_le
  have len2 : ((t.dropWhile isPySpace).reverse.dropWhile isPySpace).length ≤
      (t.dropWhile isPySpace).reverse.length :=
    (List.dropWhile_sublist isPySpace).length_le
  have hlen : ((t.dropWhile isPySpace).reverse.dropWhile isPySpace).reverse.length
      = t.length := by rw [h]
  rw [List.length_reverse] at hlen
  rw [List.length_reverse] at len2
  have e1 : (t.dropWhile isPySpace).length = t.length := by omega
  have d1 : t.dropWhile isPySpace = t :=
    (List.dropWhile_sublist isPySpace).eq_of_length e1
  refine ⟨d1, ?_⟩
  rw [d1] at h
  have h2 := congrArg List.reverse h
  rw [List.reverse_reverse] at h2
  exact h2

/-- Inserting `t ++ "," ++ t` leaves `stripWS` inert when `t` itself is
already stripped. -/
theorem stripWS_append_self (t : List Char) (h : stripWS t = t) :
    stripWS (t ++ ',' :: t) = t ++ ',' :: t := by
  obtain ⟨h1, h2⟩ := stripWS_parts t h
  have hrev : (t ++ ',' :: t).reverse = t.reverse ++ ',' :: t.reverse := by
    rw [List.reverse_append]
    simp
  unfold stripWS
  rw [dropWhile_append_cons _ _ _ _ (by decide) h1, hrev,
    dropWhile_append_cons _ _ _ _ (by decide) h2, ← hrev, List.reverse_reverse]

/-- Claim C8 counterexample: the single-component duplication law fails
for the comma-free token `"3\n"`: `margin "3\n"` strips the newline and
succeeds, while in `margin "3\n,3\n"` the first component keeps its
newline and `time` rejects it. -/
theorem C8_margin_counterexample : margin "3\n" ≠ margin "3\n,3\n" := by
  have h1 : margin "3\n" = .ok (.int 3, .int 3) := by with_unfolding_all rfl
  have h2 : margin "3\n,3\n" = .error (.coerceError "Unknown unit: '\n'") := by
    with_unfolding_all rfl
  rw [h1, h2]
  exact fun h => Except.noConfusion h

/-- Claim C8 (amended): `margin` splits its stripped input on `,`; a
single component is duplicated, so for every comma-free token `t` that is
already stripped (no leading/trailing whitespace),
`margin t = margin (t ++ "," ++ t)`; more than two components fail; each
component is coerced via `time`. -/
theorem C8_margin :
    (∀ t : String, charMem ',' t.toList = false → stripWS t.toList = t.toList →
      margin t = margin (t ++ "," ++ t)) ∧
    margin "3" = margin "3,3" ∧
    (∀ s, 2 < (dupSingle (splitOnChar ',' (stripWS s.toList))).length →
      margin s = .error (.coerceError "--margin has too many arguments.")) ∧
    (∀ s a b, dupSingle (splitOnChar ',' (stripWS s.toList)) = [a, b] →
      margin s = match time ⟨a⟩ with
        | .error e => .error e
        | .ok x =>
          match time ⟨b⟩ with
          | .error e => .error e
          | .ok y => .ok (x, y)) := by
  refine ⟨?_, ?_, ?_, ?_⟩
  · intro t hmem hstrip
    have hnot : ',' ∉ t.toList := by
      intro hc
      rw [← charMem_eq_true_iff] at hc
      rw [hmem] at hc
      exact Bool.noConfusion hc
    have hlist : (t ++ "," ++ t).toList = t.toList ++ ',' :: t.toList := by
      simp [String.toList, String.data_append]
    simp only [margin, hstrip, splitOnChar_not_mem ',' t.toList hnot, hlist,
      stripWS_append_self t.toList hstrip,
      splitOnChar_append ',' t.toList t.toList hnot,
      splitOnChar_not_mem ',' t.toList hnot, dupSingle]
  · with_unfolding_all rfl
  · intro s h
    simp only [margin]
    rcases hd : dupSingle (splitOnChar ',' (stripWS s.toList)) with _ | ⟨a, _ | ⟨b, _ | ⟨c, t⟩⟩⟩
    · rfl
    · rfl
    · exfalso; rw [hd] at h; simp at h
    · rfl
  · intro s a b hd
    simp only [margin, hd]

/-- Witness for C8: the duplication law applied at the stripped comma-free
tokens `"3"` and `"5s"`, and the component conjunct at `"0.2,3s"`. -/
theorem C8_margin_witness :
    margin "3" = margin "3,3" ∧
    margin "5s" = margin "5s,5s" ∧
    margin "0.2,3s" = match time "0.2" with
      | .error e => .error e
      | .ok x =>
        match time "3s" with
        | .error e => .error e
        | .ok y => .ok (x, y) :=
  ⟨C8_margin.1 "3" (by with_unfolding_all rfl) (by with_unfolding_all rfl),
   C8_margin.1 "5s" (by with_unfolding_all rfl) (by with_unfolding_all rfl),
   by
    have h := C8_margin.2.2.2 "0.2,3s" "0.2".toList "3s".toList
      (by with_unfolding_all rfl)
    rwa [mk_toList, mk_toList] at h⟩

/-! ## Error-kind lemmas: which exception class each coercer can raise -/

theorem isCoerce_split_num_str (v : NumOrStr) (e : PyErr)
    (h : split_num_str v = .error e) : e.isCoerce = true := by
  unfold split_num_str at h
  repeat' split at h
  all_goals first
    | exact Except.noConfusion h
    | (cases h; rfl)

theorem isCoerce_unit_check (u : String) (a : List String) (e : PyErr)
    (h : unit_check u a = .error e) : e.isCoerce = true := by
  unfold unit_check at h
  repeat' split at h
  all_goals first
    | exact Except.noConfusion h
    | (cases h; rfl)

theorem isCoerce_natural (v : NumOrStr) (e : PyErr)
    (h : natural v = .error e) : e.isCoerce = true := by
  unfold natural at h
  repeat' split at h
  all_goals first
    | exact Except.noConfusion h
    | (cases h; rfl)
    | (rename_i heq
       cases h
       exact isCoerce_split_num_str _ _ heq)

theorem isCoerce_numberTail (v : NumOrStr) (e : PyErr)
    (h : numberTail v = .error e) : e.isCoerce = true := by
  unfold numberTail at h
  repeat' split at h
  all_goals first
    | exact Except.noConfusion h
    | (cases h; rfl)
    | (rename_i heq
       cases h
       first
         | exact isCoerce_split_num_str _ _ heq
         | exact isCoerce_unit_check _ _ _ heq)

theorem isCoerce_number (v : NumOrStr) (e : PyErr)
    (h : number v = .error e) : e.isCoerce = true := by
  unfold number at h
  repeat' split at h
  all_goals first
    | exact Except.noConfusion h
    | (cases h; rfl)
    | exact isCoerce_numberTail _ _ h

theorem isCoerce_speed (s : String) (e : PyErr)
    (h : speed s = .error e) : e.isCoerce = true := by
  unfold speed at h
  repeat' split at h
  all_goals first
    | exact Except.noConfusion h
    | (cases h; rfl)
    | (rename_i heq
       cases h
       exact isCoerce_number _ _ heq)

theorem isCoerce_threshold (v : NumOrStr) (e : PyErr)
    (h : threshold v = .error e) : e.isCoerce = true := by
  unfold threshold at h
  repeat' split at h
  all_goals first
    | exact Except.noConfusion h
    | (cases h; rfl)
    | (rename_i heq
       cases h
       exact isCoerce_number _ _ heq)

theorem isCoerce_db_number (s : String) (e : PyErr)
    (h : db_number s = .error e) : e.isCoerce = true := by
  unfold db_number at h
  repeat' split at h
  all_goals first
    | exact Except.noConfusion h
    | (cases h; rfl)
    | (rename_i heq
       cases h
       first
         | exact isCoerce_split_num_str _ _ heq
         | exact isCoerce_number _ _ heq)

theorem isCoerce_db_threshold (s : String) (e : PyErr)
    (h : db_threshold s = .error e) : e.isCoerce = true := by
  unfold db_threshold at h
  repeat' split at h
  all_goals first
    | exact Except.noConfusion h
    | (cases h; rfl)
    | (rename_i heq
       cases h
       first
         | exact isCoerce_split_num_str _ _ heq
         | exact isCoerce_threshold _ _ heq)

theorem isCoerce_sample_rate (s : String) (e : PyErr)
    (h : sample_rate s = .error e) : e.isCoerce = true := by
  unfold sample_rate at h
  repeat' split at h
  all_goals first
    | exact Except.noConfusion h
    | (cases h; rfl)
    | exact isCoerce_natural _ _ h
    | (rename_i heq
       cases h
       first
         | exact isCoerce_split_num_str _ _ heq
         | exact isCoerce_unit_check _ _ _ heq)

theorem isCoerce_bool_coerce (s : String) (e : PyErr)
    (h : bool_coerce s = .error e) : e.isCoerce = true := by
  unfold bool_coerce at h
  repeat' split at h
  all_goals first
    | exact Except.noConfusion h
    | (cases h; rfl)

theorem isCoerce_anchor (s : String) (e : PyErr)
    (h : anchor s = .error e) : e.isCoerce = true := by
  unfold anchor at h
  repeat' split at h
  all_goals first
    | exact Except.noConfusion h
    | (cases h; rfl)

theorem isCoerce_align (s : String) (e : PyErr)
    (h : align s = .error e) : e.isCoerce = true := by
  unfold align at h
  repeat' split at h
  all_goals first
    | exact Except.noConfusion h
    | (cases h; rfl)

theorem isCoerce_stream (s : String) (e : PyErr)
    (h : stream s = .error e) : e.isCoerce = true := by
  unfold stream at h
  repeat' split at h
  all_goals first
    | exact Except.noConfusion h
    | (cases h; rfl)
    | (rename_i heq
       cases h
       exact isCoerce_natural _ _ heq)

theorem isCoerce_comma_coerce (name val : String) (k : ℕ) (e : PyErr)
    (h : comma_coerce name val k = .error e) : e.isCoerce = true := by
  unfold comma_coerce at h
  repeat' split at h
  all_goals first
    | exact Except.noConfusion h
    | (cases h; rfl)

theorem isCoerce_time_range (s : String) (e : PyErr)
    (h : time_range s = .error e) : e.isCoerce = true := by
  unfold time_range at h
  exact isCoerce_comma_coerce _ _ _ _ h

theorem isCoerce_speed_range (s : String) (e : PyErr)
    (h : speed_range s = .error e) : e.isCoerce = true := by
  unfold speed_range at h
  repeat' split at h
  all_goals first
    | exact Except.noConfusion h
    | (cases h; rfl)
    | (rename_i heq
       cases h
       first
         | exact isCoerce_comma_coerce _ _ _ _ heq
         | exact isCoerce_number _ _ heq)

theorem isCoerce_resolution (v : Option String) (e : PyErr)
    (h : resolution v = .error e) : e.isCoerce = true := by
  unfold resolution at h
  repeat' split at h
  all_goals first
    | exact Except.noConfusion h
    | (cases h; rfl)
    | (rename_i heq
       cases h
       exact isCoerce_natural _ _ heq)

theorem isCoerce_pos (p : NumOrStr × ℤ) (e : PyErr)
    (h : pos p = .error e) : e.isCoerce = true := by
  unfold pos at h
  repeat' split at h
  all_goals first
    | exact Except.noConfusion h
    | (cases h; rfl)
    | (rename_i heq
       cases h
       first
         | exact isCoerce_split_num_str _ _ heq
         | exact isCoerce_unit_check _ _ _ heq)

/-- Claim C1 counterexample: `color` is a coercer whose failure is not a
`CoerceError`: on `"#zzz"` it raises `ValueError`. -/
theorem C1_error_kinds_counterexample :
    color "#zzz" = .error (.valueError "Invalid Color: '#zzz'") ∧
    (PyErr.valueError "Invalid Color: '#zzz'").isCoerce = false :=
  ⟨by with_unfolding_all rfl, rfl⟩

/-- Claim C1 (amended): every failure of `natural`, `bool_coerce`,
`number`, `speed`, `threshold`, `db_number`, `db_threshold`,
`sample_rate`, `anchor`, `align`, `stream`, `time_range`, `speed_range`,
`resolution` and `pos` is a `CoerceError`; but `color`'s invalid-color
failure is a `ValueError`, `frame_rate` propagates `ValueError` (or
`ZeroDivisionError` for a zero denominator) from `Fraction`, and `time`'s
colon branch (hence `margin`) propagates `ValueError` from `int`/`float`
parsing.  (`src` never fails at all.) -/
theorem C1_error_kinds :
    (∀ v e, natural v = .error e → e.isCoerce = true) ∧
    (∀ s e, bool_coerce s = .error e → e.isCoerce = true) ∧
    (∀ v e, number v = .error e → e.isCoerce = true) ∧
    (∀ s e, speed s = .error e → e.isCoerce = true) ∧
    (∀ v e, threshold v = .error e → e.isCoerce = true) ∧
    (∀ s e, db_number s = .error e → e.isCoerce = true) ∧
    (∀ s e, db_threshold s = .error e → e.isCoerce = true) ∧
    (∀ s e, sample_rate s = .error e → e.isCoerce = true) ∧
    (∀ s e, anchor s = .error e → e.isCoerce = true) ∧
    (∀ s e, align s = .error e → e.isCoerce = true) ∧
    (∀ s e, stream s = .error e → e.isCoerce = true) ∧
    (∀ s e, time_range s = .error e → e.isCoerce = true) ∧
    (∀ s e, speed_range s = .error e → e.isCoerce = true) ∧
    (∀ v e, resolution v = .error e → e.isCoerce = true) ∧
    (∀ p e, pos p = .error e → e.isCoerce = true) ∧
    color "#zzz" = .error (.valueError "Invalid Color: '#zzz'") ∧
    frame_rate "abc" = .error (.valueError "Invalid literal for Fraction: 'abc'") ∧
    frame_rate "1/0" = .error (.zeroDivisionError "Fraction(1, 0)") ∧
    time "a:b" = .error (.valueError "invalid literal for int() with base 10: 'a'") ∧
    margin "a:b" = .error (.valueError "invalid literal for int() with base 10: 'a'") :=
  ⟨isCoerce_natural, isCoerce_bool_coerce, isCoerce_number, isCoerce_speed,
   isCoerce_threshold, isCoerce_db_number, isCoerce_db_threshold,
   isCoerce_sample_rate, isCoerce_anchor, isCoerce_align, isCoerce_stream,
   isCoerce_time_range, isCoerce_speed_range, isCoerce_resolution,
   isCoerce_pos,
   by with_unfolding_all rfl, by with_unfolding_all rfl,
   by with_unfolding_all rfl, by with_unfolding_all rfl,
   by with_unfolding_all rfl⟩

/-- Witness for C1: one concrete failure per conjunct, each a
`CoerceError`. -/
theorem C1_error_kinds_witness :
    (PyErr.coerceError "Invalid number: 'x'").isCoerce = true ∧
    (PyErr.coerceError "'z': Invalid boolean").isCoerce = true ∧
    (PyErr.coerceError "'1/0': Denominator must not be zero.").isCoerce = true ∧
    (PyErr.coerceError "Invalid number: 'y'").isCoerce = true ∧
    (PyErr.coerceError
      "'1.5': Threshold must be between 0 and 1 (0%-100%)").isCoerce = true ∧
    (PyErr.coerceError "Invalid number: 'w'").isCoerce = true ∧
    (PyErr.coerceError "dB only goes up to 0").isCoerce = true ∧
    (PyErr.coerceError "Unknown unit: 'x'").isCoerce = true ∧
    (PyErr.coerceError "Anchor must be: tl tr bl br ce").isCoerce = true ∧
    (PyErr.coerceError "Align must be 'left', 'right', or 'center'").isCoerce = true ∧
    (PyErr.coerceError "'-1': Natural cannot be negative.").isCoerce = true ∧
    (PyErr.coerceError "Too few arguments for time_range.").isCoerce = true ∧
    (PyErr.coerceError "Too few arguments for speed_range.").isCoerce = true ∧
    (PyErr.coerceError "'9': Resolution takes two numbers").isCoerce = true ∧
    (PyErr.coerceError "Unknown unit: 'q'").isCoerce = true :=
  ⟨C1_error_kinds.1 (.str "x") _ (by with_unfolding_all rfl),
   C1_error_kinds.2.1 "z" _ (by with_unfolding_all rfl),
   C1_error_kinds.2.2.1 (.str "1/0") _ (by with_unfolding_all rfl),
   C1_error_kinds.2.2.2.1 "y" _ (by with_unfolding_all rfl),
   C1_error_kinds.2.2.2.2.1 (.str "1.5") _ (by with_unfolding_all rfl),
   C1_error_kinds.2.2.2.2.2.1 "w" _ (by with_unfolding_all rfl),
   C1_error_kinds.2.2.2.2.2.2.1 "5dB" _ (by with_unfolding_all rfl),
   C1_error_kinds.2.2.2.2.2.2.2.1 "3x" _ (by with_unfolding_all rfl),
   C1_error_kinds.2.2.2.2.2.2.2.2.1 "zz" _ (by with_unfolding_all rfl),
   C1_error_kinds.2.2.2.2.2.2.2.2.2.1 "up" _ (by with_unfolding_all rfl),
   C1_error_kinds.2.2.2.2.2.2.2.2.2.2.1 "-1" _ (by with_unfolding_all rfl),
   C1_error_kinds.2.2.2.2.2.2.2.2.2.2.2.1 "8" _ (by with_unfolding_all rfl),
   C1_error_kinds.2.2.2.2.2.2.2.2.2.2.2.2.1 "8,9" _ (by with_unfolding_all rfl),
   C1_error_kinds.2.2.2.2.2.2.2.2.2.2.2.2.2.1 (some "9") _ (by with_unfolding_all rfl),
   C1_error_kinds.2.2.2.2.2.2.2.2.2.2.2.2.2.2.1 (.str "2q", 10) _
     (by with_unfolding_all rfl)⟩

end AutoEditor
